import Mathlib

/-!
Verification of the performance-metrics and charting pipeline of the
run-analysis-suite dashboard.

Numbers are modelled as exact rationals (`ℚ`); the source computes in JS
64-bit floats, whose results agree with the exact rational values at the
precisions the specification speaks about.

Source files embedded here:
* `Dashboard` component (metrics arithmetic, upload-flag record, stats cards);
* `PerformanceChart.tsx` (chart projection and axis/tooltip formatting);
* `VideoUploadCard.tsx` (file selection and MIME gating).
-/

/-- One kinematic sample, source interface `PerformanceData`
(`time`, `position`, `velocity`). -/
structure PerformanceData where
  time : ℚ
  position : ℚ
  velocity : ℚ
deriving DecidableEq

/-- First entry of the Dashboard's hardcoded sample array:
`{time 0, position 0.863, velocity 0}`. -/
def sampleHead : PerformanceData := ⟨0, 863/1000, 0⟩

/-- Remaining entries of the Dashboard's hardcoded sample array:
`{0.133, 0.816, 0.08857}, {0.267, 0.863, 0.177}, {0.400, 0.863, 0.08857}`. -/
def sampleTail : List PerformanceData :=
  [⟨133/1000, 816/1000, 8857/100000⟩,
   ⟨267/1000, 863/1000, 177/1000⟩,
   ⟨400/1000, 863/1000, 8857/100000⟩]

/-- The hardcoded sample array `samplePerformanceData` of the Dashboard:
`[{time 0, position 0.863, velocity 0}, {0.133, 0.816, 0.08857},
{0.267, 0.863, 0.177}, {0.400, 0.863, 0.08857}]`. -/
def samplePerformanceData : List PerformanceData := sampleHead :: sampleTail

/-- JS `Math.max(...args)` over a non-empty argument list `x :: xs`
(left-to-right fold, as the spread evaluates). `Math.max()` of an empty
spread is `-Infinity` in JS, which is why aggregation of an empty series
must be guarded before this is ever reached; see `computeMetrics`. -/
def mathMax (x : ℚ) (xs : List ℚ) : ℚ :=
  xs.foldl max x

/-- The error surfaced when aggregation is requested on a zero-length
series (spec error kind `EmptySeriesError`). -/
inductive MetricsError
  | emptySeries
deriving DecidableEq

/-- The derived summary statistics (spec data model `Metrics`). -/
structure Metrics where
  maxVelocity : ℚ
  avgVelocity : ℚ
  totalDistance : ℚ
  duration : ℚ
deriving DecidableEq

/-- The metrics the Dashboard computes inline for a non-empty series
`d :: ds`:
`maxVelocity = Math.max(...data.map(d => d.velocity))`,
`avgVelocity = data.reduce((sum, d) => sum + d.velocity, 0) / data.length`,
`totalDistance = Math.max(...data.map(d => d.position))`,
and the elapsed duration `last.time - first.time`. -/
def metricsNE (d : PerformanceData) (ds : List PerformanceData) : Metrics :=
  { maxVelocity := mathMax d.velocity (ds.map PerformanceData.velocity)
    avgVelocity :=
      ((d :: ds).foldl (fun sum s => sum + s.velocity) 0) / ((d :: ds).length : ℚ)
    totalDistance := mathMax d.position (ds.map PerformanceData.position)
    duration := (ds.getLastD d).time - d.time }

/-- Modelled from the spec: `computeMetrics` (spec §4.1) is not a named
function in the source — the Dashboard component inlines the arithmetic of
`metricsNE` directly on the hardcoded `samplePerformanceData` array, so the
empty-series guard (`EmptySeriesError`, required by the spec because JS
`Math.max()` over an empty spread yields `-Infinity`) and the `duration`
field (spec §3: `last(Series).time - first(Series).time`; for the sample
data, which starts at `t = 0`, this coincides with `last.time`) never
appear in the source and are taken from the spec's words. -/
def computeMetrics : List PerformanceData → Except MetricsError Metrics
  | [] => .error .emptySeries
  | d :: ds => .ok (metricsNE d ds)

/-- The exact metrics of the sample series: maximum velocity `0.177`,
mean velocity `0.088535`, maximum position `0.863`, duration `0.400`. -/
def sampleMetrics : Metrics :=
  { maxVelocity := 177/1000
    avgVelocity := 17707/200000
    totalDistance := 863/1000
    duration := 400/1000 }

/-- The field selector of `PerformanceChart` (source prop `dataKey`, the TS
union type `'position' | 'velocity'`). -/
inductive DataKey
  | position
  | velocity
deriving DecidableEq

/-- One renderable chart point `{x: time, y: value}` (spec data model
`ChartPoint`). -/
structure ChartPoint where
  x : ℚ
  y : ℚ
deriving DecidableEq

/-- The value recharts reads from a sample for the selected `dataKey`. -/
def fieldValue : DataKey → PerformanceData → ℚ
  | .position, d => d.position
  | .velocity, d => d.velocity

/-- The chart projection: `PerformanceChart` hands `data` to recharts with
`XAxis dataKey="time"` and a `Line`/`Bar` on the selected field, so each
sample becomes the point `(x = time, y = selected field)`, one per sample
in input order. -/
def project (data : List PerformanceData) (dataKey : DataKey) : List ChartPoint :=
  data.map (fun d => ⟨d.time, fieldValue dataKey d⟩)

/-- The error surfaced when a projection is requested for an unrecognized
field (spec error kind `InvalidFieldError`). -/
inductive ProjectError
  | invalidField
deriving DecidableEq

/-- Modelled from the spec: in the source the field selector is rejected
statically by the TS union type `'position' | 'velocity'`, so no dynamic
check exists; the spec (§4.2) demands that any selector other than these
two variants fail with `InvalidFieldError`. -/
def parseField (field : String) : Except ProjectError DataKey :=
  if field = "position" then .ok .position
  else if field = "velocity" then .ok .velocity
  else .error .invalidField

/-- Modelled from the spec: `project` over a dynamically supplied field
selector — parse the selector (per spec §4.2) and project on success. -/
def projectStr (data : List PerformanceData) (field : String) :
    Except ProjectError (List ChartPoint) :=
  (parseField field).map (fun k => project data k)

/-- The unit suffix the chart appends for a field: `m/s` for velocity,
`m` for position. -/
def unitSuffix : DataKey → String
  | .velocity => "m/s"
  | .position => "m"

/-- Time-axis tick formatter, source template literal
`(value) => ${value}s` over the tick value's rendering. -/
def timeTickFormatter (value : String) : String := value ++ "s"

/-- Value-axis tick formatter, source
`(value) => dataKey === 'velocity' ? ${value}m/s : ${value}m`. -/
def valueTickFormatter (dataKey : DataKey) (value : String) : String :=
  if dataKey = DataKey.velocity then value ++ "m/s" else value ++ "m"

/-- The decimal digits of `f` laid out over `n` places, most significant
first (used for the fractional part of a fixed-point rendering). -/
def fracDigits (n f : Nat) : List Char :=
  (List.range n).map (fun i => Nat.digitChar (f / 10 ^ (n - 1 - i) % 10))

/-- Fixed-point rendering of the scaled magnitude `m` (an integer count of
`10 ^ n`-ths) as integer part, a dot, and exactly `n` fractional digits. -/
def fixedRepr (n m : Nat) : String :=
  Nat.repr (m / 10 ^ n) ++ "." ++ String.mk (fracDigits n (m % 10 ^ n))

/-- JS `value.toFixed(n)` on the exact rational value: the nearest multiple
of `10 ^ (-n)`, ties toward positive infinity (ECMA-262 picks the larger
candidate), rendered with exactly `n` digits after the dot. -/
def toFixedQ (n : Nat) (q : ℚ) : String :=
  let scaled : ℤ := ⌊q * (10 : ℚ) ^ n + 1/2⌋
  if scaled < 0 then "-" ++ fixedRepr n (-scaled).toNat
  else fixedRepr n scaled.toNat

/-- Tooltip value formatter, source
`(value) => [${value.toFixed(3)}${dataKey === 'velocity' ? 'm/s' : 'm'}, …]`. -/
def tooltipValueFormatter (dataKey : DataKey) (value : ℚ) : String :=
  toFixedQ 3 value ++ (if dataKey = DataKey.velocity then "m/s" else "m")

/-- A browser `File` as far as the upload card reads it: a `name` and a
MIME `type`. -/
structure File where
  name : String
  type : String
deriving DecidableEq

/-- JS `s.startsWith(pre)`: `pre` is a prefix of `s` (modelled over the
character lists). -/
def jsStartsWith (s pre : String) : Bool :=
  pre.toList.isPrefixOf s.toList

/-- `VideoUploadCard.handleFileChange` / `handleDrop` file selection:
`const file = files[0]; if (file && file.type.startsWith('video/'))
onUpload(file);` — `some f` when the upload callback fires with `f`,
`none` when nothing happens. -/
def selectUploadFile : List File → Option File
  | [] => none
  | f :: _ => if jsStartsWith f.type "video/" then some f else none

/-- One row of the Dashboard's `videoRanges` array. -/
structure VideoRange where
  range : String
  distance : String
  key : String

/-- The Dashboard's `videoRanges` array of the four 25-meter segments. -/
def videoRanges : List VideoRange :=
  [⟨"Range 1", "0-25 meters", "0-25"⟩,
   ⟨"Range 2", "25-50 meters", "25-50"⟩,
   ⟨"Range 3", "50-75 meters", "50-75"⟩,
   ⟨"Range 4", "75-100 meters", "75-100"⟩]

/-- The four segment keys `"0-25", "25-50", "50-75", "75-100"`. -/
def segmentKeys : List String := videoRanges.map VideoRange.key

/-- The initial `uploadedVideos` state: `useState({})` read through
`uploadedVideos[key] || false`, so every key maps to `false`. -/
def initialUploads : String → Bool := fun _ => false

/-- The Dashboard's `handleVideoUpload`: `setUploadedVideos(prev =>
({ ...prev, [range]: true }))` — mark one segment received, keep the rest. -/
def handleVideoUpload (prev : String → Bool) (range : String) : String → Bool :=
  fun k => if k = range then true else prev k

/-- One upload event as the tracker sees it: `VideoUploadCard` forwards the
file to `handleVideoUpload` only when its MIME type starts with `video/`;
any other file is silently ignored (no error is surfaced, the state is
returned unchanged). -/
def receiveUpload (st : String → Bool) (range : String) (file : File) :
    String → Bool :=
  if jsStartsWith file.type "video/" then handleVideoUpload st range else st

/-- The user role (TS union `'admin' | 'coach' | 'runner'`). -/
inductive Role
  | admin
  | coach
  | runner
deriving DecidableEq

/-- What the analysis tab displays: the four stats-card value strings and
the two chart data sequences. -/
structure DashboardView where
  maxVelocityValue : String
  avgVelocityValue : String
  totalDistanceValue : String
  analysisTimeValue : String
  positionChart : List ChartPoint
  velocityChart : List ChartPoint
deriving DecidableEq

/-- Dashboard: `Math.max(...samplePerformanceData.map(d => d.velocity))`. -/
def dashMaxVelocity : ℚ :=
  mathMax sampleHead.velocity (sampleTail.map PerformanceData.velocity)

/-- Dashboard: `samplePerformanceData.reduce((sum, d) => sum + d.velocity, 0)
/ samplePerformanceData.length`. -/
def dashAvgVelocity : ℚ :=
  (samplePerformanceData.foldl (fun sum s => sum + s.velocity) 0) /
    (samplePerformanceData.length : ℚ)

/-- Dashboard: `Math.max(...samplePerformanceData.map(d => d.position))`. -/
def dashTotalDistance : ℚ :=
  mathMax sampleHead.position (sampleTail.map PerformanceData.position)

/-- The Dashboard's analysis tab as a function of the render inputs (role
and `uploadedVideos` state): the stats cards show `maxVelocity.toFixed(3)`,
`avgVelocity.toFixed(3)`, `totalDistance.toFixed(1)` and the literal string
`"0.400"`, all computed from `samplePerformanceData`; both charts render
`samplePerformanceData`. -/
def dashboardView (userRole : Role) (uploadedVideos : String → Bool) :
    DashboardView :=
  { maxVelocityValue := toFixedQ 3 dashMaxVelocity
    avgVelocityValue := toFixedQ 3 dashAvgVelocity
    totalDistanceValue := toFixedQ 1 dashTotalDistance
    analysisTimeValue := "0.400"
    positionChart := project samplePerformanceData DataKey.position
    velocityChart := project samplePerformanceData DataKey.velocity }

/- Helper lemmas about the non-empty fold `mathMax`. -/

theorem mathMax_mem (x : ℚ) (xs : List ℚ) : mathMax x xs ∈ x :: xs := by
  induction xs generalizing x with
  | nil => simp [mathMax]
  | cons y ys ih =>
    have h := ih (max x y)
    rcases List.mem_cons.mp h with h1 | h1
    · have hx : mathMax x (y :: ys) = max x y := by
        rw [mathMax, List.foldl_cons]; exact h1
      rcases max_choice x y with hm | hm
      · exact List.mem_cons.mpr (Or.inl (hx.trans hm))
      · exact List.mem_cons.mpr (Or.inr (List.mem_cons.mpr (Or.inl (hx.trans hm))))
    · refine List.mem_cons.mpr (Or.inr (List.mem_cons.mpr (Or.inr ?_)))
      rw [mathMax, List.foldl_cons]
      exact h1

theorem le_mathMax_init (x : ℚ) (xs : List ℚ) : x ≤ mathMax x xs := by
  induction xs generalizing x with
  | nil => simp [mathMax]
  | cons y ys ih =>
    have h := ih (max x y)
    calc x ≤ max x y := le_max_left x y
    _ ≤ mathMax (max x y) ys := h
    _ = mathMax x (y :: ys) := by rw [mathMax, mathMax, List.foldl_cons]

theorem le_mathMax_of_mem {a : ℚ} {xs : List ℚ} (x : ℚ) (h : a ∈ xs) :
    a ≤ mathMax x xs := by
  induction xs generalizing x with
  | nil => cases h
  | cons y ys ih =>
    rcases List.mem_cons.mp h with h1 | h1
    · subst h1
      calc a ≤ max x a := le_max_right x a
      _ ≤ mathMax (max x a) ys := le_mathMax_init _ _
      _ = mathMax x (a :: ys) := by rw [mathMax, mathMax, List.foldl_cons]
    · have := ih (max x y) h1
      rw [mathMax, List.foldl_cons]
      exact this

theorem mathMax_isGreatest (x : ℚ) (xs : List ℚ) :
    mathMax x xs ∈ x :: xs ∧ ∀ a ∈ x :: xs, a ≤ mathMax x xs := by
  refine ⟨mathMax_mem x xs, ?_⟩
  intro a ha
  rcases List.mem_cons.mp ha with h1 | h1
  · subst h1; exact le_mathMax_init a xs
  · exact le_mathMax_of_mem x h1

/-- The Dashboard's `reduce`-based sum of velocities equals the sum of the
mapped velocity list. -/
theorem foldl_velocity_sum (l : List PerformanceData) :
    l.foldl (fun sum s => sum + s.velocity) 0 =
      (l.map PerformanceData.velocity).sum := by
  rw [List.sum_eq_foldl, List.foldl_map]

/-- C1: aggregation on the empty series fails with `EmptySeriesError` —
`computeMetrics []` returns the explicit error and never an `ok` metrics
value, so no arithmetic result (in JS, no `NaN`/`-Infinity`) escapes to
the caller. -/
theorem computeMetrics_empty_fails :
    computeMetrics [] = Except.error MetricsError.emptySeries ∧
    (computeMetrics []).isOk = false :=
  ⟨rfl, rfl⟩

/-- C2: for every non-empty series `d :: ds`, `computeMetrics` succeeds
with `maxVelocity` the maximum of the velocity values (a velocity of some
sample, and an upper bound of all of them), `avgVelocity` the arithmetic
mean of the velocities over all samples (the leading sample included), and
`totalDistance` the maximum of the position values. -/
theorem computeMetrics_nonempty_correct (d : PerformanceData)
    (ds : List PerformanceData) :
    computeMetrics (d :: ds) = Except.ok (metricsNE d ds) ∧
    (metricsNE d ds).maxVelocity ∈ (d :: ds).map PerformanceData.velocity ∧
    (∀ v ∈ (d :: ds).map PerformanceData.velocity,
      v ≤ (metricsNE d ds).maxVelocity) ∧
    (metricsNE d ds).avgVelocity =
      ((d :: ds).map PerformanceData.velocity).sum / ((d :: ds).length : ℚ) ∧
    (metricsNE d ds).totalDistance ∈ (d :: ds).map PerformanceData.position ∧
    (∀ p ∈ (d :: ds).map PerformanceData.position,
      p ≤ (metricsNE d ds).totalDistance) := by
  refine ⟨rfl, ?_, ?_, ?_, ?_, ?_⟩
  · simpa [metricsNE] using mathMax_mem d.velocity (ds.map PerformanceData.velocity)
  · intro v hv
    rw [List.map_cons] at hv
    rcases List.mem_cons.mp hv with h1 | h1
    · subst h1
      exact le_mathMax_init d.velocity (ds.map PerformanceData.velocity)
    · exact le_mathMax_of_mem d.velocity h1
  · show ((d :: ds).foldl (fun sum s => sum + s.velocity) 0) /
      ((d :: ds).length : ℚ) = _
    rw [foldl_velocity_sum]
  · simpa [metricsNE] using mathMax_mem d.position (ds.map PerformanceData.position)
  · intro p hp
    rw [List.map_cons] at hp
    rcases List.mem_cons.mp hp with h1 | h1
    · subst h1
      exact le_mathMax_init d.position (ds.map PerformanceData.position)
    · exact le_mathMax_of_mem d.position h1

/-- C2 witness: on the hardcoded sample array, `computeMetrics` succeeds
with the inline metrics, `0.177` is among the velocities and is bounded by
the computed maximum. -/
theorem computeMetrics_nonempty_correct_witness :
    computeMetrics samplePerformanceData =
      Except.ok (metricsNE sampleHead sampleTail) ∧
    (177/1000 : ℚ) ≤ (metricsNE sampleHead sampleTail).maxVelocity :=
  ⟨(computeMetrics_nonempty_correct sampleHead sampleTail).1,
   (computeMetrics_nonempty_correct sampleHead sampleTail).2.2.1 (177/1000)
     (by simp [sampleHead, sampleTail])⟩

/-- The metrics of the sample series evaluate to `sampleMetrics`. -/
theorem metricsNE_sample : metricsNE sampleHead sampleTail = sampleMetrics := by
  simp only [metricsNE, sampleHead, sampleTail, sampleMetrics, Metrics.mk.injEq]
  norm_num [mathMax, max_def, List.getLastD]

/-- The sample mean velocity `0.088535` renders as `0.089` at 3 decimal
places. -/
theorem toFixedQ_sample_avg : toFixedQ 3 (17707/200000 : ℚ) = "0.089" := by
  have h : (⌊(17707/200000 : ℚ) * (10:ℚ) ^ (3:Nat) + 1/2⌋ : ℤ) = 89 := by
    rw [Int.floor_eq_iff]; norm_num
  rw [toFixedQ, h]
  decide

/-- The sample maximum velocity `0.177` renders as `0.177` at 3 decimal
places. -/
theorem toFixedQ_sample_max : toFixedQ 3 (177/1000 : ℚ) = "0.177" := by
  have h : (⌊(177/1000 : ℚ) * (10:ℚ) ^ (3:Nat) + 1/2⌋ : ℤ) = 177 := by
    rw [Int.floor_eq_iff]; norm_num
  rw [toFixedQ, h]
  decide

/-- The sample maximum position `0.863` renders as `0.9` at 1 decimal
place. -/
theorem toFixedQ_sample_dist : toFixedQ 1 (863/1000 : ℚ) = "0.9" := by
  have h : (⌊(863/1000 : ℚ) * (10:ℚ) ^ (1:Nat) + 1/2⌋ : ℤ) = 9 := by
    rw [Int.floor_eq_iff]; norm_num
  rw [toFixedQ, h]
  decide

/-- C3 counterexample: on the four-sample series, `computeMetrics` yields
an average velocity of exactly `0.088535` (and the other fields as
claimed), which is not `≈ 0.08879`: it differs from `0.08879` by more than
half a unit in the fifth decimal place, so it does not round to `0.08879`
at the precision the claim states. -/
theorem sample_avg_velocity_not_08879 :
    computeMetrics samplePerformanceData = Except.ok sampleMetrics ∧
    sampleMetrics.avgVelocity = 17707/200000 ∧
    5/1000000 < |sampleMetrics.avgVelocity - 8879/100000| := by
  refine ⟨?_, rfl, ?_⟩
  · show Except.ok (metricsNE sampleHead sampleTail) = _
    rw [metricsNE_sample]
  · rw [abs_sub_comm]
    norm_num [sampleMetrics, lt_abs]

/-- C3 amended: on the four-sample series, `computeMetrics` yields
`maxVelocity = 0.177`, `avgVelocity = 0.088535` (which rounds to `0.089`
at 3 decimal places), `totalDistance = 0.863`, and `duration = 0.400`. -/
theorem sample_metrics_exact :
    computeMetrics samplePerformanceData = Except.ok sampleMetrics ∧
    sampleMetrics.maxVelocity = 177/1000 ∧
    sampleMetrics.avgVelocity = 17707/200000 ∧
    toFixedQ 3 sampleMetrics.avgVelocity = "0.089" ∧
    sampleMetrics.totalDistance = 863/1000 ∧
    sampleMetrics.duration = 400/1000 := by
  refine ⟨?_, rfl, rfl, ?_, rfl, rfl⟩
  · show Except.ok (metricsNE sampleHead sampleTail) = _
    rw [metricsNE_sample]
  · exact toFixedQ_sample_avg

/-- C4: for every non-empty series, the maximum velocity `computeMetrics`
returns is at least the average velocity it returns. -/
theorem maxVelocity_ge_avgVelocity (d : PerformanceData)
    (ds : List PerformanceData) :
    computeMetrics (d :: ds) = Except.ok (metricsNE d ds) ∧
    (metricsNE d ds).avgVelocity ≤ (metricsNE d ds).maxVelocity := by
  refine ⟨rfl, ?_⟩
  have hmem : ∀ v ∈ (d :: ds).map PerformanceData.velocity,
      v ≤ mathMax d.velocity (ds.map PerformanceData.velocity) := by
    intro v hv
    rw [List.map_cons] at hv
    rcases List.mem_cons.mp hv with h1 | h1
    · subst h1
      exact le_mathMax_init d.velocity (ds.map PerformanceData.velocity)
    · exact le_mathMax_of_mem d.velocity h1
  have hsum := List.sum_le_card_nsmul ((d :: ds).map PerformanceData.velocity)
    (mathMax d.velocity (ds.map PerformanceData.velocity)) hmem
  rw [List.length_map] at hsum
  have hlen : (0 : ℚ) < ((d :: ds).length : ℚ) := by
    rw [List.length_cons]
    push_cast
    positivity
  show ((d :: ds).foldl (fun sum s => sum + s.velocity) 0) /
    ((d :: ds).length : ℚ) ≤ mathMax d.velocity (ds.map PerformanceData.velocity)
  rw [foldl_velocity_sum, div_le_iff₀ hlen]
  calc ((d :: ds).map PerformanceData.velocity).sum
      ≤ (d :: ds).length •
        mathMax d.velocity (ds.map PerformanceData.velocity) := hsum
  _ = mathMax d.velocity (ds.map PerformanceData.velocity) *
        ((d :: ds).length : ℚ) := by
      rw [nsmul_eq_mul, mul_comm]

/-- C5: each of the two projections returns exactly one chart point per
sample, in input order: both have the same length as the series, both carry
`x` values identical to the sample times (hence identical to each other),
and whenever the series times are strictly increasing (the Series
invariant) the `x` values of both projections are strictly increasing. -/
theorem project_shape (d : PerformanceData) (ds : List PerformanceData) :
    (project (d :: ds) DataKey.position).length = (d :: ds).length ∧
    (project (d :: ds) DataKey.velocity).length = (d :: ds).length ∧
    (project (d :: ds) DataKey.position).map ChartPoint.x =
      (d :: ds).map PerformanceData.time ∧
    (project (d :: ds) DataKey.velocity).map ChartPoint.x =
      (d :: ds).map PerformanceData.time ∧
    (List.Chain' (· < ·) ((d :: ds).map PerformanceData.time) →
      List.Chain' (· < ·) ((project (d :: ds) DataKey.position).map ChartPoint.x) ∧
      List.Chain' (· < ·) ((project (d :: ds) DataKey.velocity).map ChartPoint.x)) := by
  have hp : (project (d :: ds) DataKey.position).map ChartPoint.x =
      (d :: ds).map PerformanceData.time := by
    rw [project, List.map_map]
    rfl
  have hv : (project (d :: ds) DataKey.velocity).map ChartPoint.x =
      (d :: ds).map PerformanceData.time := by
    rw [project, List.map_map]
    rfl
  refine ⟨?_, ?_, hp, hv, ?_⟩
  · rw [project, List.length_map]
  · rw [project, List.length_map]
  · intro h
    rw [hp, hv]
    exact ⟨h, h⟩

/-- C5 witness: on the hardcoded sample array (whose times are strictly
increasing) both projections have strictly increasing `x` values. -/
theorem project_shape_witness :
    List.Chain' (· < ·)
      ((project samplePerformanceData DataKey.position).map ChartPoint.x) ∧
    List.Chain' (· < ·)
      ((project samplePerformanceData DataKey.velocity).map ChartPoint.x) :=
  (project_shape sampleHead sampleTail).2.2.2.2
    (by norm_num [sampleHead, sampleTail])

/-- C6: projecting with any field selector other than `"position"` and
`"velocity"` fails with `InvalidFieldError` and produces no point
sequence. -/
theorem projectStr_invalid_field (data : List PerformanceData) (field : String)
    (h1 : field ≠ "position") (h2 : field ≠ "velocity") :
    projectStr data field = Except.error ProjectError.invalidField := by
  simp [projectStr, parseField, h1, h2, Except.map]

/-- C6 witness: projecting the sample series on the field `"height"` fails
with `InvalidFieldError`. -/
theorem projectStr_invalid_field_witness :
    projectStr samplePerformanceData "height" =
      Except.error ProjectError.invalidField :=
  projectStr_invalid_field samplePerformanceData "height"
    (by decide) (by decide)

/-- C8: the time-axis tick label is the tick value with `"s"` appended;
the value-axis tick label appends `"m/s"` for velocity and `"m"` for
position (the field's unit suffix); the tooltip value is the `y` value
rendered by `toFixedQ 3` — which for a non-negative value is an integer
part, a dot, and exactly 3 fractional digits — with the same unit suffix
appended. -/
theorem formatter_contract (dataKey : DataKey) (value : String) (q : ℚ) :
    timeTickFormatter value = value ++ "s" ∧
    valueTickFormatter DataKey.velocity value = value ++ "m/s" ∧
    valueTickFormatter DataKey.position value = value ++ "m" ∧
    valueTickFormatter dataKey value = value ++ unitSuffix dataKey ∧
    tooltipValueFormatter dataKey q = toFixedQ 3 q ++ unitSuffix dataKey ∧
    (0 ≤ q → ∃ intPart fracPart, toFixedQ 3 q = intPart ++ "." ++ fracPart ∧
      fracPart.length = 3) := by
  refine ⟨rfl, rfl, rfl, ?_, ?_, ?_⟩
  · cases dataKey <;> rfl
  · cases dataKey <;> rfl
  · intro hq
    have hscaled : (0 : ℤ) ≤ ⌊q * (10 : ℚ) ^ (3:Nat) + 1/2⌋ := by
      rw [Int.le_floor]
      push_cast
      positivity
    refine ⟨Nat.repr ((⌊q * (10 : ℚ) ^ (3:Nat) + 1/2⌋).toNat / 10 ^ 3),
      String.mk (fracDigits 3 ((⌊q * (10 : ℚ) ^ (3:Nat) + 1/2⌋).toNat % 10 ^ 3)),
      ?_, ?_⟩
    · rw [toFixedQ, if_neg (not_lt.mpr hscaled)]
      rfl
    · show (fracDigits 3 _).length = 3
      rw [fracDigits, List.length_map, List.length_range]

/-- C8 witness: for the sample peak velocity `0.177`, the tooltip shows
`toFixedQ 3` of the value with the velocity suffix, and the rendering
splits into an integer part, a dot, and exactly 3 fractional digits. -/
theorem formatter_contract_witness :
    tooltipValueFormatter DataKey.velocity (177/1000) =
      toFixedQ 3 (177/1000 : ℚ) ++ unitSuffix DataKey.velocity ∧
    (∃ intPart fracPart, toFixedQ 3 (177/1000 : ℚ) =
      intPart ++ "." ++ fracPart ∧ fracPart.length = 3) :=
  ⟨(formatter_contract DataKey.velocity "" (177/1000)).2.2.2.2.1,
   (formatter_contract DataKey.velocity "" (177/1000)).2.2.2.2.2
     (by norm_num)⟩

/-- C7: the upload tracker starts with all four segment keys mapped to
`false`; receiving a file whose MIME type starts with `video/` for one key
sets exactly that key's flag to `true` and leaves every other key's flag
unchanged; receiving a file of any non-video MIME type leaves the whole
state unchanged (and, the transition being total, surfaces no error). -/
theorem upload_tracker_transitions (st : String → Bool) (range : String)
    (file : File) :
    (∀ k ∈ segmentKeys, initialUploads k = false) ∧
    (jsStartsWith file.type "video/" = true →
      receiveUpload st range file range = true ∧
      ∀ k, k ≠ range → receiveUpload st range file k = st k) ∧
    (jsStartsWith file.type "video/" = false →
      receiveUpload st range file = st) := by
  refine ⟨fun k _ => rfl, fun h => ⟨?_, fun k hk => ?_⟩, fun h => ?_⟩
  · rw [receiveUpload, if_pos h, handleVideoUpload]
    simp
  · rw [receiveUpload, if_pos h, handleVideoUpload]
    simp [hk]
  · rw [receiveUpload, if_neg (by rw [h]; exact Bool.false_ne_true)]

/-- C7 witness: all four keys start `false`; a `video/mp4` file for
`"25-50"` sets that key and leaves `"0-25"` unchanged; a `text/plain` file
changes nothing. -/
theorem upload_tracker_transitions_witness :
    (initialUploads "0-25" = false ∧ initialUploads "25-50" = false ∧
     initialUploads "50-75" = false ∧ initialUploads "75-100" = false) ∧
    receiveUpload initialUploads "25-50" ⟨"sprint.mp4", "video/mp4"⟩ "25-50" =
      true ∧
    receiveUpload initialUploads "25-50" ⟨"sprint.mp4", "video/mp4"⟩ "0-25" =
      initialUploads "0-25" ∧
    receiveUpload initialUploads "0-25" ⟨"notes.txt", "text/plain"⟩ =
      initialUploads :=
  ⟨⟨(upload_tracker_transitions initialUploads "25-50"
        ⟨"sprint.mp4", "video/mp4"⟩).1 "0-25" (by decide),
    (upload_tracker_transitions initialUploads "25-50"
        ⟨"sprint.mp4", "video/mp4"⟩).1 "25-50" (by decide),
    (upload_tracker_transitions initialUploads "25-50"
        ⟨"sprint.mp4", "video/mp4"⟩).1 "50-75" (by decide),
    (upload_tracker_transitions initialUploads "25-50"
        ⟨"sprint.mp4", "video/mp4"⟩).1 "75-100" (by decide)⟩,
   ((upload_tracker_transitions initialUploads "25-50"
        ⟨"sprint.mp4", "video/mp4"⟩).2.1 (by decide)).1,
   ((upload_tracker_transitions initialUploads "25-50"
        ⟨"sprint.mp4", "video/mp4"⟩).2.1 (by decide)).2 "0-25" (by decide),
   (upload_tracker_transitions initialUploads "0-25"
        ⟨"notes.txt", "text/plain"⟩).2.2 (by decide)⟩

/-- C9: whatever upload events arrive and whatever the user role is, the
analysis tab shows the same view: the stats and charts are computed from
the hardcoded `samplePerformanceData` array (max velocity `0.177`, average
velocity `0.089`, total distance `0.9` after `toFixed(1)`), the charts are
its two projections, and the displayed analysis time is the literal string
`"0.400"`, derived from no series. -/
theorem dashboard_ignores_uploads_and_role (userRole otherRole : Role)
    (events : List (String × File)) (st : String → Bool) :
    dashboardView userRole
        (events.foldl (fun acc e => receiveUpload acc e.1 e.2) initialUploads) =
      dashboardView userRole initialUploads ∧
    dashboardView userRole st = dashboardView otherRole st ∧
    (dashboardView userRole st).analysisTimeValue = "0.400" ∧
    (dashboardView userRole st).maxVelocityValue = "0.177" ∧
    (dashboardView userRole st).avgVelocityValue = "0.089" ∧
    (dashboardView userRole st).totalDistanceValue = "0.9" ∧
    (dashboardView userRole st).positionChart =
      project samplePerformanceData DataKey.position ∧
    (dashboardView userRole st).velocityChart =
      project samplePerformanceData DataKey.velocity := by
  refine ⟨rfl, rfl, rfl, ?_, ?_, ?_, rfl, rfl⟩
  · show toFixedQ 3 dashMaxVelocity = "0.177"
    have h : dashMaxVelocity = 177/1000 := by
      norm_num [dashMaxVelocity, sampleHead, sampleTail, mathMax, max_def]
    rw [h, toFixedQ_sample_max]
  · show toFixedQ 3 dashAvgVelocity = "0.089"
    have h : dashAvgVelocity = 17707/200000 := by
      norm_num [dashAvgVelocity, samplePerformanceData, sampleHead, sampleTail]
    rw [h, toFixedQ_sample_avg]
  · show toFixedQ 1 dashTotalDistance = "0.9"
    have h : dashTotalDistance = 863/1000 := by
      norm_num [dashTotalDistance, sampleHead, sampleTail, mathMax, max_def]
    rw [h, toFixedQ_sample_dist]

/-- C10: when an event carries several files, only the first is examined —
if its MIME type starts with `video/` the upload callback fires with it,
and otherwise nothing happens regardless of the rest of the list; an empty
file list is a no-op. -/
theorem select_first_file_only (f : File) (rest : List File) :
    selectUploadFile [] = none ∧
    (jsStartsWith f.type "video/" = true →
      selectUploadFile (f :: rest) = some f) ∧
    (jsStartsWith f.type "video/" = false →
      selectUploadFile (f :: rest) = none) := by
  refine ⟨rfl, fun h => ?_, fun h => ?_⟩
  · rw [selectUploadFile, if_pos h]
  · rw [selectUploadFile, if_neg (by rw [h]; exact Bool.false_ne_true)]

/-- C10 witness: an empty selection does nothing; a leading `video/mp4`
file is passed to the callback; a leading `text/plain` file suppresses the
upload even when a video file follows it in the list. -/
theorem select_first_file_only_witness :
    selectUploadFile [] = none ∧
    selectUploadFile [⟨"sprint.mp4", "video/mp4"⟩] =
      some ⟨"sprint.mp4", "video/mp4"⟩ ∧
    selectUploadFile
        [⟨"notes.txt", "text/plain"⟩, ⟨"sprint.mp4", "video/mp4"⟩] = none :=
  ⟨(select_first_file_only ⟨"sprint.mp4", "video/mp4"⟩ []).1,
   (select_first_file_only ⟨"sprint.mp4", "video/mp4"⟩ []).2.1 (by decide),
   (select_first_file_only ⟨"notes.txt", "text/plain"⟩
      [⟨"sprint.mp4", "video/mp4"⟩]).2.2 (by decide)⟩
